import Mathlib

/-!
Shallow embedding of the sound-playback coordinator and the alarm screen of
the Jarvis-MKIII frontend, with theorems about its behaviour.

The embedded code:
  * `stopAllSounds` from `src/frontend/src/contexts/soundPlaybackContext.tsx`
  * `handlePlayback` from the `SoundOption` component (`src/unnamed/part_001`)
  * `handleCollapse` from the `SoundSelector` wrapper (`src/unnamed/part_000`)
  * `handleToggle` from the older `SoundSelector` variant (`src/unnamed/part_013`)
  * `togglePlayback` from the local-state `SoundOption` variant
    (`src/frontend/src/components/SoundSelector.tsx`)
  * `loadAlarms`, `handleToggleAlarm`, `handleDeleteAlarm`, `handleAddAlarm`
    from `src/frontend/src/features/alarmScreen.tsx`

Network calls are modelled by passing each backend call's outcome as an
explicit parameter (`Bool` for resolve/reject, `Option` for a fetch result);
the effect trace of backend requests, settle delays and error logs is
returned as a list of `Event`s.
-/

namespace Jarvis

/-- The shared playback state held by `SoundPlaybackProvider`:
`currentlyPlaying: string | null`. -/
structure PlaybackState where
  currentlyPlaying : Option String
deriving DecidableEq, Repr

/-- Observable effects of the coordinator: a backend `POST /alarms/stop`,
a backend `POST /alarms/play/{soundId}`, the fixed settle delay
(`setTimeout(resolve, 100)`), and a `console.error` log. -/
inductive Event where
  | stop : Event
  | play : String → Event
  | sleep : Nat → Event
  | logError : Event
deriving DecidableEq, Repr

/-- JavaScript truthiness of a `string | null` value, as tested by
`if (currentlyPlaying)`: `null` and the empty string are falsy. -/
def jsTruthy : Option String → Bool
  | none => false
  | some str => str ≠ ""

/-- `stopAllSounds` from `soundPlaybackContext.tsx` (lines 19–26):
`try { await soundApi.stop(); setCurrentlyPlayingState(null); }
 catch (error) { console.error(...); }`.
The backend stop request is always issued; only when it resolves
(`stopOk = true`) is the shared state cleared.  On rejection the error is
logged and the state is left unchanged. -/
def stopAllSounds (stopOk : Bool) (s : PlaybackState) : PlaybackState × List Event :=
  if stopOk then
    ({ currentlyPlaying := none }, [Event.stop])
  else
    (s, [Event.stop, Event.logError])

/-- `handlePlayback` from the coordinator-based `SoundOption`
(`src/unnamed/part_001`, lines 168–186).  `isPlaying` is the derived flag
`currentlyPlaying === sound.id`.  If it holds, the call delegates to
`stopAllSounds` and returns.  Otherwise, if `currentlyPlaying` is truthy,
it first runs `stopAllSounds` and waits 100 ms; then it issues the backend
play.  On resolution the shared state becomes `some soundId`; on rejection
the catch block logs and resets the state to `none`. -/
def handlePlayback (soundId : String) (stopOk playOk : Bool) (s : PlaybackState) :
    PlaybackState × List Event :=
  if s.currentlyPlaying = some soundId then
    stopAllSounds stopOk s
  else
    let preEvents : List Event :=
      if jsTruthy s.currentlyPlaying then
        (stopAllSounds stopOk s).2 ++ [Event.sleep 100]
      else []
    if playOk then
      ({ currentlyPlaying := some soundId }, preEvents ++ [Event.play soundId])
    else
      ({ currentlyPlaying := none }, preEvents ++ [Event.play soundId, Event.logError])

/-- The playing indicator each coordinator-based widget renders:
`const isPlaying = currentlyPlaying === sound.id` (`src/unnamed/part_001`,
line 144). -/
def derivedIsPlaying (s : PlaybackState) (soundId : String) : Bool :=
  s.currentlyPlaying = some soundId

/-- A user interaction against the coordinator: pressing a sound widget's
play button (with the backend stop/play outcomes) or an explicit
`stopAllSounds` (with the backend stop outcome). -/
inductive Op where
  | play : String → Bool → Bool → Op
  | stopAll : Bool → Op
deriving DecidableEq, Repr

/-- Apply one interaction to the shared state (the effect trace is dropped). -/
def applyOp (s : PlaybackState) : Op → PlaybackState
  | Op.play soundId stopOk playOk => (handlePlayback soundId stopOk playOk s).1
  | Op.stopAll stopOk => (stopAllSounds stopOk s).1

/-- Run a sequence of interactions from a starting state. -/
def runOps (ops : List Op) (s : PlaybackState) : PlaybackState :=
  ops.foldl applyOp s

/-- `soundId` is the id of some play interaction in the sequence. -/
def opsMayPlay (ops : List Op) (soundId : String) : Prop :=
  ∃ stopOk playOk, Op.play soundId stopOk playOk ∈ ops

/-- `handleCollapse` from `src/unnamed/part_000` (lines 17–21): the
`CollapsibleSection.onToggle` callback receives the new expanded state;
when it is `false` (the section was just collapsed) the coordinator's
`stopAllSounds` is awaited, otherwise nothing happens. -/
def handleCollapse (isExpanded : Bool) (stopOk : Bool) (s : PlaybackState) :
    PlaybackState × List Event :=
  if !isExpanded then stopAllSounds stopOk s else (s, [])

/-- Local state of the older `SoundSelector` variant (`src/unnamed/part_013`):
its own `isExpanded` flag next to the shared playback state. -/
structure SelectorState where
  isExpanded : Bool
  playback : PlaybackState
deriving DecidableEq, Repr

/-- `handleToggle` from `src/unnamed/part_013` (lines 17–22): when the
section is currently expanded (so the click collapses it), `stopAllSounds`
is awaited first; then `isExpanded` is flipped. -/
def handleToggle (stopOk : Bool) (st : SelectorState) : SelectorState × List Event :=
  if st.isExpanded then
    let res := stopAllSounds stopOk st.playback
    ({ isExpanded := !st.isExpanded, playback := res.1 }, res.2)
  else
    ({ isExpanded := !st.isExpanded, playback := st.playback }, [])

/-- Local state of one `SoundOption` widget from
`src/frontend/src/components/SoundSelector.tsx` (lines 36–38): a per-widget
`isPlaying` flag held in `useState(false)` and an `audioRef` that is never
assigned in this component. -/
structure LocalWidget where
  soundId : String
  isPlaying : Bool
  audioRef : Option Unit
deriving DecidableEq, Repr

/-- A freshly mounted local-state widget for a given sound. -/
def localWidgetInit (soundId : String) : LocalWidget :=
  { soundId := soundId, isPlaying := false, audioRef := none }

/-- `togglePlayback` from `src/frontend/src/components/SoundSelector.tsx`
(lines 60–88): if the local flag is set and `audioRef.current` is non-null,
pause and clear the flag; otherwise POST the play request and, if the
response is ok, set the local flag (a 3 s timer clears it later, modelled
by `localTimerFire`). On a non-ok response or a network error the failure
is only logged. -/
def localTogglePlayback (responseOk : Bool) (w : LocalWidget) : LocalWidget :=
  if w.isPlaying && w.audioRef.isSome then
    { w with isPlaying := false }
  else if responseOk then
    { w with isPlaying := true }
  else
    w

/-- The `setTimeout(() => setIsPlaying(false), 3000)` callback of the
local-state widget. -/
def localTimerFire (w : LocalWidget) : LocalWidget :=
  { w with isPlaying := false }

/-- A server-side alarm record as mirrored by the screen
(`AlarmStatus` in the frontend API models). -/
structure AlarmStatus where
  alarm_id : String
  time : String
  active : Bool
  scheduled : Bool
  next_execution : Option String
  time_until : Option String
deriving DecidableEq, Repr

/-- The local state of `AlarmScreen` (`src/frontend/src/features/alarmScreen.tsx`):
the modal-open flag, the in-memory alarm list, the loading flag and the
user-visible error banner. -/
structure ScreenState where
  isModalOpen : Bool
  alarms : List AlarmStatus
  loading : Bool
  error : Option String
deriving DecidableEq, Repr

/-- `loadAlarms` from `alarmScreen.tsx` (lines 18–30):
`setLoading(true); setError(null);` then `alarmApi.getAll()`.  A successful
fetch (`fetch = some response`) replaces the local list; a rejection sets
the error banner `"Fehler beim Laden der Alarme"` and leaves the list
unchanged.  `finally { setLoading(false) }`. -/
def loadAlarms (fetch : Option (List AlarmStatus)) (s : ScreenState) : ScreenState :=
  match fetch with
  | some response => { s with loading := false, error := none, alarms := response }
  | none =>
      { s with loading := false, error := some "Fehler beim Laden der Alarme" }

/-- The optimistic write of `handleToggleAlarm`:
`prev.map(alarm => alarm.alarm_id === alarmId ? { ...alarm, active: !currentActive } : alarm)`. -/
def optimisticToggle (alarmId : String) (currentActive : Bool)
    (alarms : List AlarmStatus) : List AlarmStatus :=
  alarms.map fun a =>
    if a.alarm_id = alarmId then { a with active := !currentActive } else a

/-- The rollback of `handleToggleAlarm`:
`prev.map(alarm => alarm.alarm_id === alarmId ? { ...alarm, active: currentActive } : alarm)`. -/
def rollbackToggle (alarmId : String) (currentActive : Bool)
    (alarms : List AlarmStatus) : List AlarmStatus :=
  alarms.map fun a =>
    if a.alarm_id = alarmId then { a with active := currentActive } else a

/-- `handleToggleAlarm` from `alarmScreen.tsx` (lines 36–55):
clear the error, apply the optimistic write, `await alarmApi.toggle`; on
resolution re-fetch via `loadAlarms`; on rejection set the error banner
`"Fehler beim Umschalten des Alarms"` and roll the affected record back to
`currentActive`. -/
def handleToggleAlarm (alarmId : String) (currentActive : Bool) (toggleOk : Bool)
    (fetch : Option (List AlarmStatus)) (s : ScreenState) : ScreenState :=
  let s1 := { s with error := none,
                     alarms := optimisticToggle alarmId currentActive s.alarms }
  if toggleOk then
    loadAlarms fetch s1
  else
    { s1 with error := some "Fehler beim Umschalten des Alarms",
              alarms := rollbackToggle alarmId currentActive s1.alarms }

/-- The optimistic removal of `handleDeleteAlarm`:
`prev.filter(alarm => alarm.alarm_id !== alarmId)`. -/
def removeAlarm (alarmId : String) (alarms : List AlarmStatus) : List AlarmStatus :=
  alarms.filter fun a => a.alarm_id ≠ alarmId

/-- `handleDeleteAlarm` from `alarmScreen.tsx` (lines 57–71):
clear the error, remove the record locally, `await alarmApi.delete`; on
resolution re-fetch; on rejection set the error banner
`"Fehler beim Löschen des Alarms"` and re-fetch anyway. -/
def handleDeleteAlarm (alarmId : String) (deleteOk : Bool)
    (fetch : Option (List AlarmStatus)) (s : ScreenState) : ScreenState :=
  let s1 := { s with error := none, alarms := removeAlarm alarmId s.alarms }
  if deleteOk then
    loadAlarms fetch s1
  else
    loadAlarms fetch { s1 with error := some "Fehler beim Löschen des Alarms" }

/-- Outcome of `alarmApi.create`: resolution, or rejection with the HTTP
status the catch block inspects (`err.response?.status`). -/
inductive CreateOutcome where
  | success : CreateOutcome
  | conflict409 : CreateOutcome
  | unprocessable422 : CreateOutcome
  | otherFailure : CreateOutcome
deriving DecidableEq, Repr

/-- `handleAddAlarm` from `alarmScreen.tsx` (lines 77–96):
clear the error, `await alarmApi.create({ time })`; on resolution re-fetch
and close the modal; on rejection keep the modal as it was and map the
status code to a message: 409 interpolates the typed time, 422 reports a
bad format, anything else a generic failure. -/
def handleAddAlarm (time : String) (result : CreateOutcome)
    (fetch : Option (List AlarmStatus)) (s : ScreenState) : ScreenState :=
  let s1 := { s with error := none }
  match result with
  | CreateOutcome.success => { loadAlarms fetch s1 with isModalOpen := false }
  | CreateOutcome.conflict409 =>
      { s1 with error := some ("Alarm für " ++ time ++ " existiert bereits") }
  | CreateOutcome.unprocessable422 =>
      { s1 with error := some "Ungültiges Zeitformat" }
  | CreateOutcome.otherFailure =>
      { s1 with error := some "Fehler beim Erstellen des Alarms" }

/-! ## Theorems -/

/-- Claim C2: when a different sound `x` is currently marked playing and the
backend calls resolve, `handlePlayback y` issues exactly the trace
"one stop, the 100 ms settle delay, one play for `y`" (the stop strictly
preceding the play), ends with `currentlyPlaying = y`, and the widget for
`x` derives not-playing while the widget for `y` derives playing.
Sound ids are non-empty, hence the hypothesis `x ≠ ""`. -/
theorem C2_handover (x y : String) (s : PlaybackState)
    (hx : s.currentlyPlaying = some x) (hxy : x ≠ y) (hxe : x ≠ "") :
    (handlePlayback y true true s).2 = [Event.stop, Event.sleep 100, Event.play y] ∧
    (handlePlayback y true true s).1.currentlyPlaying = some y ∧
    derivedIsPlaying (handlePlayback y true true s).1 x = false ∧
    derivedIsPlaying (handlePlayback y true true s).1 y = true := by
  have hne : ¬(s.currentlyPlaying = some y) := by
    rw [hx]
    simp [hxy]
  simp [handlePlayback, stopAllSounds, jsTruthy, hx, hne, hxe, hxy, derivedIsPlaying,
    Ne.symm hxy]

/-- Witness for C2 at `x = "a"`, `y = "b"`, starting state `Playing "a"`. -/
theorem C2_handover_witness :
    (PlaybackState.mk (some "a")).currentlyPlaying = some "a" ∧
    ("a" : String) ≠ "b" ∧ ("a" : String) ≠ "" ∧
    ((handlePlayback "b" true true ⟨some "a"⟩).2 =
        [Event.stop, Event.sleep 100, Event.play "b"] ∧
      (handlePlayback "b" true true ⟨some "a"⟩).1.currentlyPlaying = some "b" ∧
      derivedIsPlaying (handlePlayback "b" true true ⟨some "a"⟩).1 "a" = false ∧
      derivedIsPlaying (handlePlayback "b" true true ⟨some "a"⟩).1 "b" = true) :=
  ⟨rfl, by decide, by decide, C2_handover "a" "b" ⟨some "a"⟩ rfl (by decide) (by decide)⟩

/-- Claim C3: `play(x)` while `currentlyPlaying = x` behaves exactly as
`stopAllSounds` — in particular no backend play request is issued — and,
when the backend stop resolves, ends with `currentlyPlaying = none`
(toggle-off). -/
theorem C3_toggle_off (x : String) (stopOk playOk : Bool) (s : PlaybackState)
    (hx : s.currentlyPlaying = some x) :
    handlePlayback x stopOk playOk s = stopAllSounds stopOk s ∧
    (∀ soundId, Event.play soundId ∉ (handlePlayback x stopOk playOk s).2) ∧
    (stopOk = true → (handlePlayback x stopOk playOk s).1.currentlyPlaying = none) := by
  have h1 : handlePlayback x stopOk playOk s = stopAllSounds stopOk s := by
    simp [handlePlayback, hx]
  refine ⟨h1, ?_, ?_⟩
  · intro soundId
    rw [h1]
    cases stopOk <;> simp [stopAllSounds]
  · intro hok
    rw [h1, hok]
    simp [stopAllSounds]

/-- Witness for C3 at `x = "a"`, both backend calls resolving, starting
state `Playing "a"`. -/
theorem C3_toggle_off_witness :
    (PlaybackState.mk (some "a")).currentlyPlaying = some "a" ∧
    (handlePlayback "a" true true ⟨some "a"⟩ = stopAllSounds true ⟨some "a"⟩ ∧
      (∀ soundId, Event.play soundId ∉ (handlePlayback "a" true true ⟨some "a"⟩).2) ∧
      (true = true → (handlePlayback "a" true true ⟨some "a"⟩).1.currentlyPlaying = none)) :=
  ⟨rfl, C3_toggle_off "a" true true ⟨some "a"⟩ rfl⟩

/-- Claim C4: when the backend play call rejects (`playOk = false`) and a
play is actually issued (the toggle-off branch is not taken), the failure
is caught inside `handlePlayback` (the embedding is a total function), the
error is logged, and the shared state is reset to `none`, so the requesting
widget derives not-playing. -/
theorem C4_play_failure (soundId : String) (stopOk : Bool) (s : PlaybackState)
    (h : s.currentlyPlaying ≠ some soundId) :
    (handlePlayback soundId stopOk false s).1.currentlyPlaying = none ∧
    Event.logError ∈ (handlePlayback soundId stopOk false s).2 ∧
    derivedIsPlaying (handlePlayback soundId stopOk false s).1 soundId = false := by
  simp [handlePlayback, h, derivedIsPlaying]

/-- Witness for C4 at `soundId = "a"`, starting from the idle state. -/
theorem C4_play_failure_witness :
    (PlaybackState.mk none).currentlyPlaying ≠ some "a" ∧
    ((handlePlayback "a" true false ⟨none⟩).1.currentlyPlaying = none ∧
      Event.logError ∈ (handlePlayback "a" true false ⟨none⟩).2 ∧
      derivedIsPlaying (handlePlayback "a" true false ⟨none⟩).1 "a" = false) :=
  ⟨by decide, C4_play_failure "a" true ⟨none⟩ (by decide)⟩

/-- Claim C10 (implicit): during a handover from `x` to `y ≠ x`, a rejected
backend stop is swallowed inside `stopAllSounds` (only a log event is
added) and does not abort the handover: the settle delay is still waited,
the backend play for `y` is still issued, and the shared state ends at
`some y`. -/
theorem C10_stop_failure_swallowed (x y : String) (s : PlaybackState)
    (hx : s.currentlyPlaying = some x) (hxy : x ≠ y) (hxe : x ≠ "") :
    (handlePlayback y false true s).2 =
      [Event.stop, Event.logError, Event.sleep 100, Event.play y] ∧
    (handlePlayback y false true s).1.currentlyPlaying = some y := by
  have hne : ¬(s.currentlyPlaying = some y) := by
    rw [hx]
    simp [hxy]
  simp [handlePlayback, stopAllSounds, jsTruthy, hx, hne, hxe, hxy]

/-- Witness for C10 at `x = "a"`, `y = "b"`, starting state `Playing "a"`,
backend stop rejecting and backend play resolving. -/
theorem C10_stop_failure_swallowed_witness :
    (PlaybackState.mk (some "a")).currentlyPlaying = some "a" ∧
    ("a" : String) ≠ "b" ∧ ("a" : String) ≠ "" ∧
    ((handlePlayback "b" false true ⟨some "a"⟩).2 =
        [Event.stop, Event.logError, Event.sleep 100, Event.play "b"] ∧
      (handlePlayback "b" false true ⟨some "a"⟩).1.currentlyPlaying = some "b") :=
  ⟨rfl, by decide, by decide,
    C10_stop_failure_swallowed "a" "b" ⟨some "a"⟩ rfl (by decide) (by decide)⟩

/-- Claim C5, counterexample: `stopAllSounds` called while
`"wake_up_sounds/wake-up-focus"` is playing and with the backend stop
rejecting completes with `currentlyPlaying` still set — the local state is
not cleared and the coordinator is left in `Playing`, contradicting
"on completion currentlyPlaying = None … never fail-stuck in Playing". -/
theorem C5_counterexample :
    (stopAllSounds false ⟨some "wake_up_sounds/wake-up-focus"⟩).1.currentlyPlaying =
        some "wake_up_sounds/wake-up-focus" ∧
    (stopAllSounds false ⟨some "wake_up_sounds/wake-up-focus"⟩).1.currentlyPlaying ≠
        none := by
  constructor
  · rfl
  · simp [stopAllSounds]

/-- Claim C5 as amended: `stopAllSounds` never throws (the rejection is
caught and only logged, so the embedding is total); when the backend stop
resolves the state ends at `none`; when nothing is playing the state stays
`none` whatever the backend outcome (idempotent no-op); but when the
backend stop rejects the local state is left unchanged — in particular it
is not cleared while a sound is playing. -/
theorem C5_amended (stopOk : Bool) (s : PlaybackState) :
    (stopAllSounds true s).1.currentlyPlaying = none ∧
    (s.currentlyPlaying = none → (stopAllSounds stopOk s).1.currentlyPlaying = none) ∧
    (stopAllSounds false s).1 = s ∧
    Event.stop ∈ (stopAllSounds stopOk s).2 := by
  refine ⟨by simp [stopAllSounds], ?_, by simp [stopAllSounds], ?_⟩
  · intro hidle
    cases stopOk <;> simp [stopAllSounds, hidle]
  · cases stopOk <;> simp [stopAllSounds]

/-- Witness for C5 as amended, at the idle state with the backend stop
rejecting. -/
theorem C5_amended_witness :
    (stopAllSounds true ⟨none⟩).1.currentlyPlaying = none ∧
    ((PlaybackState.mk none).currentlyPlaying = none →
      (stopAllSounds false ⟨none⟩).1.currentlyPlaying = none) ∧
    (stopAllSounds false ⟨none⟩).1 = ⟨none⟩ ∧
    Event.stop ∈ (stopAllSounds false ⟨none⟩).2 :=
  C5_amended false ⟨none⟩

/-- Claim C7: collapsing a container that hosts sound widgets invokes
`stopAllSounds`, and when the backend stop resolves the shared state ends
at `none` whatever it was before; expanding issues no backend call.
Both variants are covered: `handleCollapse` (`src/unnamed/part_000`)
receives the new expanded state, and `handleToggle`
(`src/unnamed/part_013`) stops when the section was expanded and flips the
flag. -/
theorem C7_collapse (s : PlaybackState) (st : SelectorState)
    (hexp : st.isExpanded = true) :
    ((handleCollapse false true s).1.currentlyPlaying = none ∧
      Event.stop ∈ (handleCollapse false true s).2) ∧
    (∀ stopOk, handleCollapse true stopOk s = (s, [])) ∧
    ((handleToggle true st).1.playback.currentlyPlaying = none ∧
      (handleToggle true st).1.isExpanded = false ∧
      Event.stop ∈ (handleToggle true st).2) ∧
    (∀ stopOk, ∀ st2 : SelectorState, st2.isExpanded = false →
      Event.stop ∉ (handleToggle stopOk st2).2) := by
  refine ⟨⟨?_, ?_⟩, ?_, ⟨?_, ?_, ?_⟩, ?_⟩
  · simp [handleCollapse, stopAllSounds]
  · simp [handleCollapse, stopAllSounds]
  · intro stopOk
    simp [handleCollapse]
  · simp [handleToggle, hexp, stopAllSounds]
  · simp [handleToggle, hexp]
  · simp [handleToggle, hexp, stopAllSounds]
  · intro stopOk st2 hcol
    simp [handleToggle, hcol]

/-- Witness for C7 at the state `Playing "a"` with an expanded selector. -/
theorem C7_collapse_witness :
    (SelectorState.mk true ⟨some "a"⟩).isExpanded = true ∧
    (((handleCollapse false true ⟨some "a"⟩).1.currentlyPlaying = none ∧
        Event.stop ∈ (handleCollapse false true ⟨some "a"⟩).2) ∧
      (∀ stopOk, handleCollapse true stopOk ⟨some "a"⟩ = (⟨some "a"⟩, [])) ∧
      ((handleToggle true ⟨true, ⟨some "a"⟩⟩).1.playback.currentlyPlaying = none ∧
        (handleToggle true ⟨true, ⟨some "a"⟩⟩).1.isExpanded = false ∧
        Event.stop ∈ (handleToggle true ⟨true, ⟨some "a"⟩⟩).2) ∧
      (∀ stopOk, ∀ st2 : SelectorState, st2.isExpanded = false →
        Event.stop ∉ (handleToggle stopOk st2).2)) :=
  ⟨rfl, C7_collapse ⟨some "a"⟩ ⟨true, ⟨some "a"⟩⟩ rfl⟩

/-- Claim C6: `handleToggleAlarm` applies the desired active value
(`!currentActive`) to the affected record in the optimistic write; when the
mutation resolves and the re-fetch succeeds, the local list is replaced by
the authoritative server list; when the mutation rejects, the single
affected record is rolled back to its pre-optimistic value — so under the
precondition that the rendered record carried `active = currentActive`,
the whole list is exactly as before — and the user-visible error banner is
set. -/
theorem C6_toggle_alarm (alarmId : String) (currentActive : Bool)
    (serverList : List AlarmStatus) (fetchFail : Option (List AlarmStatus))
    (s : ScreenState)
    (hpre : ∀ a ∈ s.alarms, a.alarm_id = alarmId → a.active = currentActive) :
    (∀ a ∈ s.alarms, a.alarm_id = alarmId →
      { a with active := !currentActive } ∈
        optimisticToggle alarmId currentActive s.alarms) ∧
    (handleToggleAlarm alarmId currentActive true (some serverList) s).alarms
        = serverList ∧
    (handleToggleAlarm alarmId currentActive false fetchFail s).alarms = s.alarms ∧
    (handleToggleAlarm alarmId currentActive false fetchFail s).error =
        some "Fehler beim Umschalten des Alarms" := by
  have hroll : rollbackToggle alarmId currentActive
      (optimisticToggle alarmId currentActive s.alarms) = s.alarms := by
    unfold rollbackToggle optimisticToggle
    rw [List.map_map]
    have hpt : ∀ a ∈ s.alarms,
        ((fun a : AlarmStatus =>
            if a.alarm_id = alarmId then { a with active := currentActive } else a) ∘
          (fun a : AlarmStatus =>
            if a.alarm_id = alarmId then { a with active := !currentActive } else a)) a
          = id a := by
      intro a ha
      by_cases haid : a.alarm_id = alarmId
      · have hact := hpre a ha haid
        simp [Function.comp, haid, ← hact]
        rw [← haid]
      · simp [Function.comp, haid]
    rw [List.map_congr_left hpt, List.map_id]
  refine ⟨?_, ?_, ?_, ?_⟩
  · intro a ha haid
    have hmem := List.mem_map_of_mem
      (fun a : AlarmStatus =>
        if a.alarm_id = alarmId then { a with active := !currentActive } else a) ha
    simpa [optimisticToggle, haid] using hmem
  · simp [handleToggleAlarm, loadAlarms]
  · simpa [handleToggleAlarm] using hroll
  · simp [handleToggleAlarm]

/-- Witness for C6 with the single alarm `{id: "1", time: "07:30",
active: false}` (the P6 scenario), toggling to active. -/
theorem C6_toggle_alarm_witness :
    (∀ a ∈ (ScreenState.mk false [⟨"1", "07:30", false, false, none, none⟩] false none).alarms,
      a.alarm_id = "1" → a.active = false) ∧
    ((∀ a ∈ (ScreenState.mk false [⟨"1", "07:30", false, false, none, none⟩] false none).alarms,
        a.alarm_id = "1" →
        { a with active := !false } ∈
          optimisticToggle "1" false
            (ScreenState.mk false [⟨"1", "07:30", false, false, none, none⟩] false none).alarms) ∧
      (handleToggleAlarm "1" false true (some [⟨"1", "07:30", true, true, none, none⟩])
          (ScreenState.mk false [⟨"1", "07:30", false, false, none, none⟩] false none)).alarms
        = [⟨"1", "07:30", true, true, none, none⟩] ∧
      (handleToggleAlarm "1" false false none
          (ScreenState.mk false [⟨"1", "07:30", false, false, none, none⟩] false none)).alarms
        = (ScreenState.mk false [⟨"1", "07:30", false, false, none, none⟩] false none).alarms ∧
      (handleToggleAlarm "1" false false none
          (ScreenState.mk false [⟨"1", "07:30", false, false, none, none⟩] false none)).error
        = some "Fehler beim Umschalten des Alarms") :=
  ⟨by decide,
    C6_toggle_alarm "1" false [⟨"1", "07:30", true, true, none, none⟩] none
      (ScreenState.mk false [⟨"1", "07:30", false, false, none, none⟩] false none)
      (by decide)⟩

/-- Claim C8: `handleAddAlarm` maps a 409 rejection to the message
`"Alarm für {time} existiert bereits"` with the typed time interpolated, a
422 rejection to the bad-format message, and any other rejection to the
generic message; on every failure the creation dialog stays open, and only
on a resolved create is the dialog closed and the list refreshed from the
server. -/
theorem C8_create_status_mapping (time : String) (fetch : Option (List AlarmStatus))
    (serverList : List AlarmStatus) (s : ScreenState) (hopen : s.isModalOpen = true) :
    ((handleAddAlarm time CreateOutcome.conflict409 fetch s).error =
        some ("Alarm für " ++ time ++ " existiert bereits") ∧
      (handleAddAlarm time CreateOutcome.conflict409 fetch s).isModalOpen = true) ∧
    ((handleAddAlarm time CreateOutcome.unprocessable422 fetch s).error =
        some "Ungültiges Zeitformat" ∧
      (handleAddAlarm time CreateOutcome.unprocessable422 fetch s).isModalOpen = true) ∧
    ((handleAddAlarm time CreateOutcome.otherFailure fetch s).error =
        some "Fehler beim Erstellen des Alarms" ∧
      (handleAddAlarm time CreateOutcome.otherFailure fetch s).isModalOpen = true) ∧
    (handleAddAlarm time CreateOutcome.success fetch s).isModalOpen = false ∧
    (handleAddAlarm time CreateOutcome.success (some serverList) s).alarms = serverList := by
  simp [handleAddAlarm, loadAlarms, hopen]

/-- Witness for C8 at `time = "07:30"` with the dialog open (the duplicate
scenario). -/
theorem C8_create_status_mapping_witness :
    (ScreenState.mk true [] false none).isModalOpen = true ∧
    (((handleAddAlarm "07:30" CreateOutcome.conflict409 none
          (ScreenState.mk true [] false none)).error =
        some ("Alarm für " ++ "07:30" ++ " existiert bereits") ∧
      (handleAddAlarm "07:30" CreateOutcome.conflict409 none
          (ScreenState.mk true [] false none)).isModalOpen = true) ∧
    ((handleAddAlarm "07:30" CreateOutcome.unprocessable422 none
          (ScreenState.mk true [] false none)).error = some "Ungültiges Zeitformat" ∧
      (handleAddAlarm "07:30" CreateOutcome.unprocessable422 none
          (ScreenState.mk true [] false none)).isModalOpen = true) ∧
    ((handleAddAlarm "07:30" CreateOutcome.otherFailure none
          (ScreenState.mk true [] false none)).error =
        some "Fehler beim Erstellen des Alarms" ∧
      (handleAddAlarm "07:30" CreateOutcome.otherFailure none
          (ScreenState.mk true [] false none)).isModalOpen = true) ∧
    (handleAddAlarm "07:30" CreateOutcome.success none
        (ScreenState.mk true [] false none)).isModalOpen = false ∧
    (handleAddAlarm "07:30" CreateOutcome.success (some [])
        (ScreenState.mk true [] false none)).alarms = []) :=
  ⟨rfl, C8_create_status_mapping "07:30" none [] (ScreenState.mk true [] false none) rfl⟩

/-- Claim C9: `handleDeleteAlarm` removes the affected record from the
local list immediately (`removeAlarm` drops exactly the records with the
given id and keeps every other record); whether the network delete resolves
or rejects, it re-fetches, so when the re-fetch succeeds the final local
list is the server's list in both cases — no synthetic record is
re-inserted. -/
theorem C9_delete_alarm (alarmId : String) (serverList : List AlarmStatus)
    (s : ScreenState) :
    (∀ a ∈ removeAlarm alarmId s.alarms, a.alarm_id ≠ alarmId) ∧
    (∀ a ∈ s.alarms, a.alarm_id ≠ alarmId → a ∈ removeAlarm alarmId s.alarms) ∧
    (handleDeleteAlarm alarmId true (some serverList) s).alarms = serverList ∧
    (handleDeleteAlarm alarmId false (some serverList) s).alarms = serverList := by
  refine ⟨?_, ?_, ?_, ?_⟩
  · intro a ha
    have := (List.mem_filter.mp ha).2
    simpa [removeAlarm] using this
  · intro a ha hne
    exact List.mem_filter.mpr ⟨ha, by simpa [removeAlarm] using hne⟩
  · simp [handleDeleteAlarm, loadAlarms]
  · simp [handleDeleteAlarm, loadAlarms]

/-- Witness for C9 deleting alarm `"1"` from a one-element list, with the
server afterwards reporting the empty list. -/
theorem C9_delete_alarm_witness :
    (∀ a ∈ removeAlarm "1"
        (ScreenState.mk false [⟨"1", "07:30", false, false, none, none⟩] false none).alarms,
      a.alarm_id ≠ "1") ∧
    (∀ a ∈ (ScreenState.mk false [⟨"1", "07:30", false, false, none, none⟩] false none).alarms,
      a.alarm_id ≠ "1" →
      a ∈ removeAlarm "1"
        (ScreenState.mk false [⟨"1", "07:30", false, false, none, none⟩] false none).alarms) ∧
    (handleDeleteAlarm "1" true (some [])
        (ScreenState.mk false [⟨"1", "07:30", false, false, none, none⟩] false none)).alarms = [] ∧
    (handleDeleteAlarm "1" false (some [])
        (ScreenState.mk false [⟨"1", "07:30", false, false, none, none⟩] false none)).alarms = [] :=
  C9_delete_alarm "1" []
    (ScreenState.mk false [⟨"1", "07:30", false, false, none, none⟩] false none)

/-- One coordinator interaction leaves the shared state at `none`, leaves
it unchanged, or sets it to the id of that interaction's play request. -/
theorem applyOp_cases (s : PlaybackState) (op : Op) :
    (applyOp s op).currentlyPlaying = none ∨
    (applyOp s op).currentlyPlaying = s.currentlyPlaying ∨
    (∃ soundId stopOk playOk, op = Op.play soundId stopOk playOk ∧
      (applyOp s op).currentlyPlaying = some soundId) := by
  cases op with
  | stopAll stopOk =>
      cases stopOk
      · right; left
        simp [applyOp, stopAllSounds]
      · left
        simp [applyOp, stopAllSounds]
  | play soundId stopOk playOk =>
      by_cases htog : s.currentlyPlaying = some soundId
      · cases stopOk
        · right; left
          simp [applyOp, handlePlayback, htog, stopAllSounds]
        · left
          simp [applyOp, handlePlayback, htog, stopAllSounds]
      · cases playOk
        · left
          simp [applyOp, handlePlayback, htog]
        · right; right
          exact ⟨soundId, stopOk, true, rfl, by simp [applyOp, handlePlayback, htog]⟩

/-- After any sequence of interactions, the shared state is `none`, is the
starting value, or is the id of some play interaction in the sequence. -/
theorem runOps_closure (ops : List Op) (s : PlaybackState) :
    (runOps ops s).currentlyPlaying = none ∨
    (runOps ops s).currentlyPlaying = s.currentlyPlaying ∨
    (∃ soundId, opsMayPlay ops soundId ∧
      (runOps ops s).currentlyPlaying = some soundId) := by
  induction ops generalizing s with
  | nil =>
      right; left
      simp [runOps]
  | cons op rest ih =>
      have hrun : runOps (op :: rest) s = runOps rest (applyOp s op) := by
        simp [runOps]
      rcases ih (applyOp s op) with h | h | ⟨soundId, ⟨stopOk, playOk, hmem⟩, h⟩
      · left
        rw [hrun]
        exact h
      · rcases applyOp_cases s op with h2 | h2 | ⟨soundId, stopOk, playOk, hop, h2⟩
        · left
          rw [hrun, h]
          exact h2
        · right; left
          rw [hrun, h]
          exact h2
        · right; right
          refine ⟨soundId, ⟨stopOk, playOk, ?_⟩, by rw [hrun, h]; exact h2⟩
          rw [hop]
          exact List.mem_cons_self _ _
      · right; right
        exact ⟨soundId, ⟨stopOk, playOk, List.mem_cons_of_mem _ hmem⟩,
          by rw [hrun]; exact h⟩

/-- Claim C1, counterexample: the `SoundOption` variant in
`src/frontend/src/components/SoundSelector.tsx` (cited by the claim) keeps a
per-widget local `isPlaying` flag.  Pressing play on the widget for
`"wake_up_sounds/wake-up-focus"` and then, while its 3 s timer has not yet
fired, on the widget for `"get_up_sounds/get-up-blossom"` (both requests
responding ok) leaves both widgets with `isPlaying = true`: two widgets
with distinct sound ids simultaneously show "playing", so it is not true
that no mounted sound-option widget trusts a per-widget local flag. -/
theorem C1_counterexample :
    (localTogglePlayback true (localWidgetInit "wake_up_sounds/wake-up-focus")).isPlaying
        = true ∧
    (localTogglePlayback true (localWidgetInit "get_up_sounds/get-up-blossom")).isPlaying
        = true ∧
    (localWidgetInit "wake_up_sounds/wake-up-focus").soundId ≠
      (localWidgetInit "get_up_sounds/get-up-blossom").soundId := by
  refine ⟨rfl, rfl, ?_⟩
  decide

/-- Claim C1 as amended: widgets built on the shared coordinator (the
`SoundOption` of `src/unnamed/part_001`) derive their indicator as
`isPlaying = (currentlyPlaying === sound.id)` from the single shared state,
so after any sequence of play/stopAll interactions `currentlyPlaying` is
`none` or the id of one requested play, and widgets for two distinct sound
ids never both derive "playing"; the per-widget-local-flag variant in
`components/SoundSelector.tsx` does not have this property. -/
theorem C1_amended (ops : List Op) (a b : String) (hab : a ≠ b) :
    ((runOps ops ⟨none⟩).currentlyPlaying = none ∨
      ∃ soundId, opsMayPlay ops soundId ∧
        (runOps ops ⟨none⟩).currentlyPlaying = some soundId) ∧
    ¬(derivedIsPlaying (runOps ops ⟨none⟩) a = true ∧
      derivedIsPlaying (runOps ops ⟨none⟩) b = true) := by
  constructor
  · rcases runOps_closure ops ⟨none⟩ with h | h | h
    · exact Or.inl h
    · exact Or.inl h
    · exact Or.inr h
  · rintro ⟨ha, hb⟩
    simp [derivedIsPlaying] at ha hb
    rw [ha] at hb
    exact hab (Option.some.inj hb)

/-- Witness for C1 as amended, for the sequence consisting of one
successful `play "a"` and the widgets for `"a"` and `"b"`. -/
theorem C1_amended_witness :
    ("a" : String) ≠ "b" ∧
    (((runOps [Op.play "a" true true] ⟨none⟩).currentlyPlaying = none ∨
        ∃ soundId, opsMayPlay [Op.play "a" true true] soundId ∧
          (runOps [Op.play "a" true true] ⟨none⟩).currentlyPlaying = some soundId) ∧
      ¬(derivedIsPlaying (runOps [Op.play "a" true true] ⟨none⟩) "a" = true ∧
        derivedIsPlaying (runOps [Op.play "a" true true] ⟨none⟩) "b" = true)) :=
  ⟨by decide, C1_amended [Op.play "a" true true] "a" "b" (by decide)⟩

end Jarvis
